import Mathlib

set_option maxRecDepth 16384

/-
Shallow embedding of the two on-chain programs of this repository:
  src/orgorush-hackathon/contracts/src/dynamic_staking.rs
  src/orgorush-hackathon/contracts/src/orgo_swap.rs
Machine integers are modelled as Nat (u16/u64/u128) and Int (i64), with an
explicit reduction mod 2^w exactly where the source's arithmetic can wrap
(release-profile wrapping semantics); casts between widths are modelled by
explicit conversion functions.  Account-identity fields (Pubkey), bump seeds,
token transfers and emitted events are elided: no claim talks about them, and
balance movement is delegated to the opaque token program.
-/

/-- Modulus of the 64-bit unsigned machine-integer type. -/
def U64 : Nat := 2 ^ 64

/-- Modulus of the 128-bit unsigned machine-integer type. -/
def U128 : Nat := 2 ^ 128

/-- Reinterpretation of a u64 bit pattern as i64 (the source's cast spelled
with the two smaller types), i.e. the two's-complement reading. -/
def i64ofU64 (n : Nat) : Int := if n < 2 ^ 63 then (n : Int) else (n : Int) - (U64 : Int)

/-- Cast of an i64 value to u128: sign-extension, i.e. reduction mod 2^128
into the range of the unsigned type. -/
def i64ToU128 (t : Int) : Nat := (t % (2 : Int) ^ 128).toNat

/-- Truncating cast of a (possibly wrapped) signed value to u64. -/
def u64ofInt (x : Int) : Nat := (x % (2 : Int) ^ 64).toNat

/-- Wrapping u64 subtraction (both arguments below 2^64 at every use site). -/
def u64sub (a b : Nat) : Nat := (a + U64 - b) % U64

namespace DynamicStaking

/-- One entry of the pool's allocation vector (dynamic_staking.rs, struct Allocation). -/
structure Allocation where
  protocol : String
  weight : Nat
  current_apy : Nat
  risk_score : Nat
deriving DecidableEq

/-- The pool account (dynamic_staking.rs, struct StakingPool); its Pubkey and
bump fields are elided. -/
structure StakingPool where
  total_staked : Nat
  total_rewards : Nat
  base_apy : Nat
  ai_boost_multiplier : Nat
  last_rebalance : Int
  allocations : List Allocation
deriving DecidableEq

/-- A per-user stake record (dynamic_staking.rs, struct UserStake); the owner
Pubkey is elided. -/
structure UserStake where
  amount : Nat
  stake_timestamp : Int
  last_claim : Int
  pending_rewards : Nat
  total_claimed : Nat
  ai_boost_active : Bool
deriving DecidableEq

/-- Error codes of the staking program (dynamic_staking.rs, enum StakingError). -/
inductive StakingError where
  | NoRewardsToClaim
  | RebalanceTooFrequent
  | InsufficientStakeForBoost
deriving DecidableEq

/-- The three seed allocations written by initialize_staking_pool. -/
def seedAllocs : List Allocation :=
  [ { protocol := "Meteora", weight := 6000, current_apy := 1800, risk_score := 200 },
    { protocol := "Raydium", weight := 3000, current_apy := 1500, risk_score := 300 },
    { protocol := "Orca", weight := 1000, current_apy := 1200, risk_score := 150 } ]

/-- initialize_staking_pool (dynamic_staking.rs): fresh pool with the seed
allocations and last_rebalance set to the current time. -/
def initialize_staking_pool (now : Int) : StakingPool :=
  { total_staked := 0, total_rewards := 0, base_apy := 1570,
    ai_boost_multiplier := 120, last_rebalance := now, allocations := seedAllocs }

/-- The zero-initialized user-stake record that the runtime hands to
stake_tokens on first use of the account. -/
def userStakeInit : UserStake :=
  { amount := 0, stake_timestamp := 0, last_claim := 0, pending_rewards := 0,
    total_claimed := 0, ai_boost_active := false }

/-- The iterator-map-sum inside calculate_pending_rewards: each product
current_apy * weight is divided by 10000 (floor) BEFORE the quotients are
summed (u128 arithmetic). -/
def weightedApySum (allocs : List Allocation) : Nat :=
  (allocs.map (fun alloc => alloc.current_apy * alloc.weight / 10000)).sum

/-- calculate_pending_rewards (dynamic_staking.rs lines 177-192).  The u128
sum wraps mod 2^128 and is then truncated to u64; the product with the
u128-cast time difference wraps mod 2^128; the result is truncated to u64. -/
def calculate_pending_rewards (us : UserStake) (pool : StakingPool) (current_time : Int) : Nat :=
  let time_diff : Int := current_time - us.last_claim
  let weighted_apy : Nat := (weightedApySum pool.allocations % U128) % U64
  let annual_rewards : Nat := us.amount * weighted_apy / 10000
  let rewards : Nat := ((annual_rewards * i64ToU128 time_diff) % U128) / 31536000
  rewards % U64

/-- Hardcoded market-volatility input of the rebalance heuristic. -/
def market_volatility : Nat := 25

/-- Hardcoded liquidity-score input of the rebalance heuristic (read nowhere). -/
def liquidity_score : Nat := 85

/-- The per-allocation match arm of rebalance_allocations: Meteora gains 500
bps capped at 7000 with APY 1900, Raydium is forced to 2500 with APY 1600,
Orca loses 200 bps floored at 500 with APY 1100, any other name is untouched. -/
def rebalance_step (alloc : Allocation) : Allocation :=
  if alloc.protocol = "Meteora" then
    if market_volatility > 20 then
      { alloc with weight := min 7000 ((alloc.weight + 500) % U64), current_apy := 1900 }
    else alloc
  else if alloc.protocol = "Raydium" then
    { alloc with weight := 2500, current_apy := 1600 }
  else if alloc.protocol = "Orca" then
    if market_volatility > 20 then
      { alloc with weight := max 500 (u64sub alloc.weight 200), current_apy := 1100 }
    else alloc
  else alloc

/-- rebalance_allocations (dynamic_staking.rs lines 194-236) acting on the
allocation vector: per-allocation adjustment, then, when the (u64, wrapping)
total weight differs from 10000, the whole residual (10000 - total, computed
with wrapping u64 subtraction and reinterpreted as i64) is added onto the
weight of the first allocation (wrapping i64 addition, truncated back to
u64).  The source indexes allocations[0] unconditionally; the empty-list
branch is unreachable from initialization, which always writes three
entries. -/
def rebalance_allocs_list (allocs : List Allocation) : List Allocation :=
  let adjusted := allocs.map rebalance_step
  let total_weight : Nat := (adjusted.map (fun a => a.weight)).sum % U64
  if total_weight ≠ 10000 then
    match adjusted with
    | [] => []
    | a0 :: rest =>
        { a0 with weight := u64ofInt (i64ofU64 a0.weight + i64ofU64 (u64sub 10000 total_weight)) }
          :: rest
  else adjusted

/-- rebalance_allocations as a pool transformer: only the allocations field
is read or written. -/
def rebalance_allocations (pool : StakingPool) : StakingPool :=
  { pool with allocations := rebalance_allocs_list pool.allocations }

/-- stake_tokens (dynamic_staking.rs lines 49-98), state transition on the
(pool, user-stake) pair after the inbound token transfer succeeded.  A record
with amount = 0 is (re)initialized and ai_boost_active is set from the
deposited amount; otherwise pending rewards are accrued, the amount grows and
last_claim resets.  The pool's total_staked is incremented, and when the
deposit exceeds 1 percent of the post-increment total a rebalance runs. -/
def stake_tokens (pool : StakingPool) (us : UserStake) (amount : Nat) (now : Int) :
    StakingPool × UserStake :=
  let us' :=
    if us.amount = 0 then
      { us with
        amount := amount
        stake_timestamp := now
        last_claim := now
        ai_boost_active := decide (amount ≥ 100000000000) }
    else
      let pending := calculate_pending_rewards us pool now
      { us with
        pending_rewards := (us.pending_rewards + pending) % U64
        amount := (us.amount + amount) % U64
        last_claim := now }
  let pool' := { pool with total_staked := (pool.total_staked + amount) % U64 }
  let pool'' := if amount > pool'.total_staked / 100 then rebalance_allocations pool' else pool'
  (pool'', us')

/-- ai_rebalance (dynamic_staking.rs lines 153-173): requires strictly more
than 86400 seconds since last_rebalance, then rebalances and stamps
last_rebalance with the current time. -/
def ai_rebalance (pool : StakingPool) (current_time : Int) : Except StakingError StakingPool :=
  if current_time - pool.last_rebalance > 86400 then
    Except.ok { rebalance_allocations pool with last_rebalance := current_time }
  else Except.error StakingError.RebalanceTooFrequent

/-- A sequence of stake_tokens calls (amount, time) threaded through the
(pool, user-stake) pair. -/
def run_stakes : StakingPool → UserStake → List (Nat × Int) → StakingPool × UserStake
  | pool, us, [] => (pool, us)
  | pool, us, (a, t) :: rest =>
      let s := stake_tokens pool us a t
      run_stakes s.1 s.2 rest

/-- Formula of claim C1, modelled from the spec wording: the bps-weighted
average APY divides the SUM of the products current_apy * weight by 10000
once (rather than each product before summing), the rest of the reward
formula unchanged. -/
def claimC1_rewards (us : UserStake) (pool : StakingPool) (current_time : Int) : Nat :=
  let weighted_apy : Nat := (pool.allocations.map (fun alloc => alloc.current_apy * alloc.weight)).sum / 10000
  us.amount * weighted_apy / 10000 * i64ToU128 (current_time - us.last_claim) / 31536000 % U64

/-- Total allocation weight of a pool's allocation vector, in basis points. -/
def sumWeights (l : List Allocation) : Nat := (l.map (fun a => a.weight)).sum

/-- The fixed point the rebalance heuristic reaches from the seed
allocations: Meteora 7000 bps at APY 1900, Raydium 2500 at 1600, Orca 500 at
1100. -/
def fpAllocs : List Allocation :=
  [ { protocol := "Meteora", weight := 7000, current_apy := 1900, risk_score := 200 },
    { protocol := "Raydium", weight := 2500, current_apy := 1600, risk_score := 300 },
    { protocol := "Orca", weight := 500, current_apy := 1100, risk_score := 150 } ]

/-- Weight of the first allocation of a pool state (the residual absorber). -/
def firstWeight : List Allocation → Nat
  | [] => 0
  | a :: _ => a.weight

/-- A pool state used to separate the two readings of the weighted-APY
formula: two allocations whose products current_apy * weight equal 5000,
so each floored quotient is 0 while the floored quotient of the sum is 1. -/
def c1CexPool : StakingPool :=
  { total_staked := 0, total_rewards := 0, base_apy := 1570, ai_boost_multiplier := 120,
    last_rebalance := 0,
    allocations := [ { protocol := "Meteora", weight := 1, current_apy := 5000, risk_score := 200 },
                     { protocol := "Raydium", weight := 1, current_apy := 5000, risk_score := 300 } ] }

/-- A user stake of 1e9 base units with last_claim at time 0. -/
def c1CexStake : UserStake := { userStakeInit with amount := 1000000000 }

/-- The stake record of the concrete instance of the amended claim C1. -/
def c1WitnessStake : UserStake := { userStakeInit with amount := 1000000 }

/-- The pool produced by a successful ai_rebalance of the fresh pool at time
90000: one rebalance step of the seed allocations with the new timestamp. -/
def poolAfterFirstRebalance : StakingPool :=
  { total_staked := 0, total_rewards := 0, base_apy := 1570, ai_boost_multiplier := 120,
    last_rebalance := 90000,
    allocations := [ { protocol := "Meteora", weight := 6700, current_apy := 1900, risk_score := 200 },
                     { protocol := "Raydium", weight := 2500, current_apy := 1600, risk_score := 300 },
                     { protocol := "Orca", weight := 800, current_apy := 1100, risk_score := 150 } ] }

end DynamicStaking

namespace OrgoSwap

/-- Escrow status of a swap (orgo_swap.rs, enum SwapStatus). -/
inductive SwapStatus where
  | Pending
  | Completed
  | Cancelled
deriving DecidableEq

/-- The swap escrow account (orgo_swap.rs, struct EscrowAccount); the user
and recipient Pubkeys are elided. -/
structure EscrowAccount where
  amount_in : Nat
  min_amount_out : Nat
  burn_bps : Nat
  created_at : Int
  status : SwapStatus
deriving DecidableEq

/-- The fee-discount stake account (orgo_swap.rs, struct StakeAccount); the
user Pubkey is elided. -/
structure StakeAccount where
  amount : Nat
  last_staked : Int
  fee_discount_bps : Nat
deriving DecidableEq

/-- Error codes of the swap program (orgo_swap.rs, enum ErrorCode). -/
inductive ErrorCode where
  | InvalidBurnRate
  | SwapExpired
  | InvalidStatus
  | SlippageExceeded
deriving DecidableEq

/-- Outcome of a successful execute_swap: the mutated escrow together with
the two transfer amounts of the emitted SwapExecuted event. -/
structure SwapResult where
  escrow : EscrowAccount
  output_amount : Nat
  burn_amount : Nat
deriving DecidableEq

/-- initiate_swap (orgo_swap.rs lines 11-51): rejects burn_bps above 1000,
otherwise records the escrow parameters with status Pending at the current
time (the inbound token transfer is elided). -/
def initiate_swap (amount_in min_amount_out burn_bps : Nat) (now : Int) :
    Except ErrorCode EscrowAccount :=
  if burn_bps ≤ 1000 then
    Except.ok { amount_in := amount_in, min_amount_out := min_amount_out,
                burn_bps := burn_bps, created_at := now, status := SwapStatus.Pending }
  else Except.error ErrorCode.InvalidBurnRate

/-- execute_swap (orgo_swap.rs lines 54-115).  Checks, in source order: the
24-hour expiry (strict less-than on the elapsed time), then the Pending
status; computes the burn in u128 arithmetic (base burn floored at bps scale,
scaled by the volatility multiplier over 100, capped at a tenth of the
input), truncates it to u64 and subtracts it from the input with saturating
u64 subtraction; rejects outputs below min_amount_out, else completes. -/
def execute_swap (e : EscrowAccount) (volatility_multiplier : Nat) (now : Int) :
    Except ErrorCode SwapResult :=
  if now - e.created_at < 86400 then
    if e.status = SwapStatus.Pending then
      let base_burn := e.amount_in * e.burn_bps / 10000
      let adjusted_burn := base_burn * volatility_multiplier / 100
      let burn_amount := min adjusted_burn (e.amount_in / 10) % U64
      let output_amount := e.amount_in - burn_amount
      if output_amount ≥ e.min_amount_out then
        Except.ok { escrow := { e with status := SwapStatus.Completed },
                    output_amount := output_amount, burn_amount := burn_amount }
      else Except.error ErrorCode.SlippageExceeded
    else Except.error ErrorCode.InvalidStatus
  else Except.error ErrorCode.SwapExpired

/-- stake_orgo (orgo_swap.rs lines 118-149): the cumulative amount grows by
checked u64 addition (the unwrap aborts on overflow, modelled as none), the
timestamp is refreshed, and the fee discount is recomputed from the new
cumulative amount, 50 bps per 100000000 base units capped at 5000 bps. -/
def stake_orgo (sa : StakeAccount) (amount : Nat) (now : Int) : Option StakeAccount :=
  if sa.amount + amount < U64 then
    let amount' := sa.amount + amount
    some { amount := amount'
           last_staked := now
           fee_discount_bps := min (amount' / 100000000 * 50) 5000 }
  else none

/-- The escrow of the worked scenario of the spec: amount_in 1000000,
burn_bps 100, created at time 0, Pending. -/
def scenarioEscrow : EscrowAccount :=
  { amount_in := 1000000, min_amount_out := 0, burn_bps := 100,
    created_at := 0, status := SwapStatus.Pending }

/-- The result execute_swap produces on scenarioEscrow with volatility
multiplier 200 at time 0. -/
def scenarioResult : SwapResult :=
  { escrow := { amount_in := 1000000, min_amount_out := 0, burn_bps := 100,
                created_at := 0, status := SwapStatus.Completed },
    output_amount := 980000, burn_amount := 20000 }

/-- An escrow whose swap has already been executed (status Completed). -/
def completedEscrow : EscrowAccount :=
  { amount_in := 1000000, min_amount_out := 0, burn_bps := 100,
    created_at := 0, status := SwapStatus.Completed }

/-- The fresh fee-discount account before any deposit. -/
def c5StartAccount : StakeAccount := { amount := 0, last_staked := 0, fee_discount_bps := 0 }

/-- The fee-discount account after a first deposit of 250000000 base units. -/
def c5ResultAccount : StakeAccount := { amount := 250000000, last_staked := 0, fee_discount_bps := 100 }

end OrgoSwap

instance {ε α : Type} [DecidableEq ε] [DecidableEq α] : DecidableEq (Except ε α) := fun a b =>
  match a, b with
  | Except.ok x, Except.ok y =>
      if h : x = y then isTrue (by rw [h]) else isFalse (by intro hc; cases hc; exact h rfl)
  | Except.error x, Except.error y =>
      if h : x = y then isTrue (by rw [h]) else isFalse (by intro hc; cases hc; exact h rfl)
  | Except.ok _, Except.error _ => isFalse (by intro hc; cases hc)
  | Except.error _, Except.ok _ => isFalse (by intro hc; cases hc)

namespace DynamicStaking

/-- Claim C1 counterexample: the code's calculate_pending_rewards divides
each product current_apy * weight by 10000 before summing, so on a pool
state whose products are below 10000 it returns 0, while the claimed
formula, which divides the sum of the products by 10000, returns 100000 on
the same stake, pool state and elapsed year.  The claim as stated is
therefore false. -/
theorem C1_counterexample :
    calculate_pending_rewards c1CexStake c1CexPool 31536000 = 0 ∧
    claimC1_rewards c1CexStake c1CexPool 31536000 = 100000 ∧
    calculate_pending_rewards c1CexStake c1CexPool 31536000 ≠
      claimC1_rewards c1CexStake c1CexPool 31536000 :=
  ⟨by decide, by decide, by decide⟩

/-- Claim C1 (amended): calculate_pending_rewards returns
floor(floor(stake_amount * W / 10000) * elapsed_seconds / 31536000) reduced
mod 2^64, where W sums the per-allocation quotients
floor(current_apy * weight / 10000) — each product is divided by 10000
before summing, rather than the sum being divided once — whenever the
elapsed time is a nonnegative i64 value, W fits in u64 and the 128-bit
product of annual reward and elapsed time does not wrap. -/
theorem C1_rewards_formula (us : UserStake) (pool : StakingPool) (t : Int)
    (h0 : 0 ≤ t - us.last_claim) (h1 : t - us.last_claim < 2 ^ 63)
    (h2 : weightedApySum pool.allocations < U64)
    (h3 : us.amount * weightedApySum pool.allocations / 10000 * (t - us.last_claim).toNat < U128) :
    calculate_pending_rewards us pool t =
      us.amount * weightedApySum pool.allocations / 10000 * (t - us.last_claim).toNat
        / 31536000 % U64 := by
  have hd : i64ToU128 (t - us.last_claim) = (t - us.last_claim).toNat := by
    unfold i64ToU128
    rw [Int.emod_eq_of_lt h0 (lt_trans h1 (by norm_num))]
  have hW : weightedApySum pool.allocations % U128 % U64 = weightedApySum pool.allocations := by
    rw [Nat.mod_eq_of_lt (lt_trans h2 (by norm_num [U64, U128])), Nat.mod_eq_of_lt h2]
  simp only [calculate_pending_rewards]
  rw [hd, hW, Nat.mod_eq_of_lt h3]

/-- Witness for the amended claim C1 at the seed allocations: a 1e6 stake
over one year accrues 165000 base units, matching the amended formula. -/
theorem C1_rewards_formula_witness :
    calculate_pending_rewards c1WitnessStake (initialize_staking_pool 0) 31536000 =
      c1WitnessStake.amount * weightedApySum (initialize_staking_pool 0).allocations / 10000 *
        ((31536000 : Int) - c1WitnessStake.last_claim).toNat / 31536000 % U64 :=
  C1_rewards_formula c1WitnessStake (initialize_staking_pool 0) 31536000
    (by decide) (by decide) (by decide) (by decide)

/-- Three rebalance steps take the seed allocations to the fixed point. -/
theorem rebalance_iter_three : rebalance_allocs_list^[3] seedAllocs = fpAllocs := by decide

/-- The fixed-point allocations are invariant under one more rebalance. -/
theorem rebalance_fp_fixed : rebalance_allocs_list fpAllocs = fpAllocs := by decide

/-- Any three or more rebalance steps from the seed allocations land on the
fixed point. -/
theorem rebalance_iter_add_three (k : Nat) :
    rebalance_allocs_list^[k + 3] seedAllocs = fpAllocs := by
  rw [Function.iterate_add_apply, rebalance_iter_three]
  exact Function.iterate_fixed rebalance_fp_fixed k

/-- Claim C3 (confirmed): every allocation state reachable from the seed
allocations is an iterate of the rebalance transform — both entry points,
stake_tokens (which either skips or applies one rebalance) and ai_rebalance
(which either rejects or applies exactly one rebalance), act on allocations
only through it — and after every execution of that transform (the first
iterate onward) the weights sum to exactly 10000 basis points. -/
theorem C3_weights_sum (n : Nat) :
    sumWeights (rebalance_allocs_list^[n + 1] seedAllocs) = 10000 ∧
    (∀ pool us amount t, (stake_tokens pool us amount t).1.allocations = pool.allocations ∨
        (stake_tokens pool us amount t).1.allocations = rebalance_allocs_list pool.allocations) ∧
    (∀ pool t, ai_rebalance pool t = Except.error StakingError.RebalanceTooFrequent ∨
        ai_rebalance pool t = Except.ok { pool with
          allocations := rebalance_allocs_list pool.allocations
          last_rebalance := t }) := by
  refine ⟨?_, ?_, ?_⟩
  · match n with
    | 0 => decide
    | 1 => decide
    | 2 => decide
    | k + 3 =>
      have hidx : k + 3 + 1 = k + 1 + 3 := by omega
      rw [hidx, rebalance_iter_add_three]
      decide
  · intro pool us amount t
    simp only [stake_tokens]
    split
    · right; rfl
    · left; rfl
  · intro pool t
    simp only [ai_rebalance]
    split_ifs with h
    · right; rfl
    · left; rfl

/-- As long as the stored stake amount is positive and never wraps past
2^64, further stake_tokens calls take the accrual branch, which leaves
ai_boost_active untouched and accumulates the amount. -/
theorem boost_flag_stable (l : List (Nat × Int)) : ∀ (pool : StakingPool) (us : UserStake),
    0 < us.amount → us.amount + (l.map Prod.fst).sum < U64 →
    (run_stakes pool us l).2.ai_boost_active = us.ai_boost_active ∧
    (run_stakes pool us l).2.amount = us.amount + (l.map Prod.fst).sum := by
  induction l with
  | nil =>
    intro pool us hpos hlt
    exact ⟨rfl, by simp [run_stakes]⟩
  | cons p rest ih =>
    obtain ⟨a, t⟩ := p
    intro pool us hpos hlt
    have hne : ¬ us.amount = 0 := Nat.pos_iff_ne_zero.mp hpos
    have hsums : us.amount + a + (rest.map Prod.fst).sum < U64 := by
      simp only [List.map_cons, List.sum_cons] at hlt
      omega
    have hlt' : us.amount + a < U64 := by omega
    have hstep : (stake_tokens pool us a t).2 = { us with
        pending_rewards := (us.pending_rewards + calculate_pending_rewards us pool t) % U64
        amount := (us.amount + a) % U64
        last_claim := t } := by
      simp only [stake_tokens]
      rw [if_neg hne]
    have hrun : run_stakes pool us ((a, t) :: rest) =
        run_stakes (stake_tokens pool us a t).1 (stake_tokens pool us a t).2 rest := rfl
    have hamt : ((stake_tokens pool us a t).2).amount = us.amount + a := by
      rw [hstep]
      exact Nat.mod_eq_of_lt hlt'
    have hflag : ((stake_tokens pool us a t).2).ai_boost_active = us.ai_boost_active := by
      rw [hstep]
    have hres := ih (stake_tokens pool us a t).1 (stake_tokens pool us a t).2
      (by rw [hamt]; omega) (by rw [hamt]; omega)
    rw [hrun]
    refine ⟨hres.1.trans hflag, ?_⟩
    rw [hres.2, hamt]
    simp only [List.map_cons, List.sum_cons]
    omega

/-- Claim C4 counterexample: a first stake_tokens call of amount 0 leaves
the record's amount at 0 and sets ai_boost_active to false, and the NEXT
call then re-runs the initialization branch: staking 150e9 base units on the
second call flips ai_boost_active from false to true, so a subsequent call
can change the flag, contrary to the claim. -/
theorem C4_counterexample :
    (run_stakes (initialize_staking_pool 0) userStakeInit [(0, 0)]).2.ai_boost_active = false ∧
    (run_stakes (initialize_staking_pool 0) userStakeInit
        [(0, 0), (150000000000, 5)]).2.ai_boost_active = true :=
  ⟨by decide, by decide⟩

/-- Claim C4 (amended): stake_tokens on the user's first stake with a
POSITIVE amount sets ai_boost_active to (amount >= 100e9 base units), and —
provided the cumulative staked amount never overflows u64 — no subsequent
stake_tokens call by that user changes the flag again; in particular a
first stake of 50e9 units yields false and one of 150e9 units yields true.
(A first stake of amount 0 leaves the record uninitialized, so the next
call re-evaluates the flag: the positivity proviso is what the
counterexample forces.) -/
theorem C4_boost_flag (a1 : Nat) (t1 : Int) (rest : List (Nat × Int)) (pool : StakingPool)
    (hpos : 0 < a1) (hsum : a1 + (rest.map Prod.fst).sum < U64) :
    (run_stakes pool userStakeInit ((a1, t1) :: rest)).2.ai_boost_active
        = decide (a1 ≥ 100000000000) ∧
    (run_stakes (initialize_staking_pool 0) userStakeInit [(50000000000, 0)]).2.ai_boost_active
        = false ∧
    (run_stakes (initialize_staking_pool 0) userStakeInit [(150000000000, 0)]).2.ai_boost_active
        = true := by
  refine ⟨?_, by decide, by decide⟩
  have hstep : (stake_tokens pool userStakeInit a1 t1).2 = { userStakeInit with
      amount := a1
      stake_timestamp := t1
      last_claim := t1
      ai_boost_active := decide (a1 ≥ 100000000000) } := rfl
  have hrun : run_stakes pool userStakeInit ((a1, t1) :: rest) =
      run_stakes (stake_tokens pool userStakeInit a1 t1).1
        (stake_tokens pool userStakeInit a1 t1).2 rest := rfl
  have hres := boost_flag_stable rest (stake_tokens pool userStakeInit a1 t1).1
      (stake_tokens pool userStakeInit a1 t1).2 (by rw [hstep]; exact hpos)
      (by rw [hstep]; exact hsum)
  rw [hrun]
  rw [hres.1, hstep]

/-- Witness for the amended claim C4: a single first stake of 150e9 units
activates the boost flag exactly as the threshold comparison dictates. -/
theorem C4_boost_flag_witness :
    (0 : Nat) < 150000000000 ∧
    (run_stakes (initialize_staking_pool 0) userStakeInit
        [(150000000000, 7)]).2.ai_boost_active = decide ((150000000000 : Nat) ≥ 100000000000) :=
  ⟨by decide,
   (C4_boost_flag 150000000000 7 [] (initialize_staking_pool 0) (by decide) (by decide)).1⟩

/-- Claim C6 counterexample: with last_rebalance = 0, calling ai_rebalance
at time 86400 — exactly 86400 elapsed seconds, where the claim asserts
success — fails with RebalanceTooFrequent, because the source requires
STRICTLY more than 86400 seconds. -/
theorem C6_counterexample :
    ai_rebalance (initialize_staking_pool 0) 86400 =
      Except.error StakingError.RebalanceTooFrequent ∧
    86400 ≤ (86400 : Int) - (initialize_staking_pool 0).last_rebalance :=
  ⟨by decide, by decide⟩

/-- Claim C6 (amended): ai_rebalance fails with RebalanceTooFrequent if and
only if AT MOST 86400 seconds have elapsed since last_rebalance (the
boundary case of exactly 86400 seconds fails), and succeeds if and only if
strictly more than 86400 seconds have elapsed. -/
theorem C6_rebalance_window (pool : StakingPool) (t : Int) :
    (ai_rebalance pool t = Except.error StakingError.RebalanceTooFrequent ↔
        t - pool.last_rebalance ≤ 86400) ∧
    ((∃ p2, ai_rebalance pool t = Except.ok p2) ↔ 86400 < t - pool.last_rebalance) := by
  simp only [ai_rebalance]
  split_ifs with h <;> constructor <;> simp <;> omega

/-- Claim C9 (confirmed): stake_tokens leaves the pool's last_rebalance
unchanged when the deposit exceeds 1 percent of the post-increment total and
so triggers a rebalance, while a successful ai_rebalance stamps
last_rebalance with the current time — so only ai_rebalance moves the
24-hour rebalance window. -/
theorem C9_last_rebalance_frame (pool : StakingPool) (us : UserStake) (amount : Nat) (t : Int) :
    (amount > ((pool.total_staked + amount) % U64) / 100 →
        (stake_tokens pool us amount t).1.last_rebalance = pool.last_rebalance) ∧
    (∀ t2 p2, ai_rebalance pool t2 = Except.ok p2 → p2.last_rebalance = t2) := by
  constructor
  · intro _
    simp only [stake_tokens]
    split <;> rfl
  · intro t2 p2 h
    simp only [ai_rebalance] at h
    split_ifs at h
    injection h with h
    subst h
    rfl

/-- Witness for claim C9: a fresh pool, a triggering deposit of 10 units
(more than 1 percent of the post-increment total of 10), and a successful
ai_rebalance at time 90000. -/
theorem C9_last_rebalance_frame_witness :
    (stake_tokens (initialize_staking_pool 0) userStakeInit 10 0).1.last_rebalance =
      (initialize_staking_pool 0).last_rebalance ∧
    poolAfterFirstRebalance.last_rebalance = 90000 :=
  ⟨(C9_last_rebalance_frame (initialize_staking_pool 0) userStakeInit 10 0).1 (by decide),
   (C9_last_rebalance_frame (initialize_staking_pool 0) userStakeInit 10 0).2 90000
     poolAfterFirstRebalance (by decide)⟩

/-- Claim C10 (confirmed): from the seed allocations every run of three or
more rebalance steps reaches the fixed point (Meteora 7000 bps at APY 1900,
Raydium 2500 at 1600, Orca 500 at 1100), one more rebalance leaves the
fixed point unchanged, and at every iterate along the way the index-0
residual adjustment never pushes Meteora's weight above 7000. -/
theorem C10_fixed_point :
    (∀ n : Nat, rebalance_allocs_list^[n + 3] seedAllocs = fpAllocs) ∧
    rebalance_allocs_list fpAllocs = fpAllocs ∧
    (∀ n : Nat, firstWeight (rebalance_allocs_list^[n] seedAllocs) ≤ 7000) := by
  refine ⟨rebalance_iter_add_three, rebalance_fp_fixed, ?_⟩
  intro n
  match n with
  | 0 => decide
  | 1 => decide
  | 2 => decide
  | k + 3 =>
    rw [rebalance_iter_add_three]
    decide

end DynamicStaking

namespace OrgoSwap

/-- Claim C2 (confirmed): whenever execute_swap succeeds, the burn equals
min(floor(floor(amount_in * burn_bps / 10000) * volatility_multiplier /
100), floor(amount_in / 10)), hence is capped at a tenth of the input, and
the output and burn amounts partition amount_in exactly; the spec's worked
scenario (amount_in 1000000, burn_bps 100, multiplier 200) burns 20000 and
outputs 980000. -/
theorem C2_burn_cap_conservation (e : EscrowAccount) (v : Nat) (t : Int) (r : SwapResult)
    (hA : e.amount_in < U64) (h : execute_swap e v t = Except.ok r) :
    r.burn_amount = min (e.amount_in * e.burn_bps / 10000 * v / 100) (e.amount_in / 10) ∧
    r.burn_amount ≤ e.amount_in / 10 ∧
    r.output_amount + r.burn_amount = e.amount_in ∧
    execute_swap scenarioEscrow 200 0 = Except.ok scenarioResult := by
  have hb : min (e.amount_in * e.burn_bps / 10000 * v / 100) (e.amount_in / 10) < U64 :=
    lt_of_le_of_lt (min_le_right _ _) (lt_of_le_of_lt (Nat.div_le_self _ _) hA)
  simp only [execute_swap] at h
  split_ifs at h with h1 h2 h3
  injection h with h
  subst h
  refine ⟨Nat.mod_eq_of_lt hb, ?_, ?_, by decide⟩
  · show min (e.amount_in * e.burn_bps / 10000 * v / 100) (e.amount_in / 10) % U64 ≤ _
    rw [Nat.mod_eq_of_lt hb]
    exact min_le_right _ _
  · show e.amount_in - _ + _ = e.amount_in
    rw [Nat.mod_eq_of_lt hb]
    exact Nat.sub_add_cancel (le_trans (min_le_right _ _) (Nat.div_le_self _ _))

/-- Witness for claim C2 at the spec's worked scenario: burn 20000, output
980000, summing back to the 1000000 input. -/
theorem C2_burn_cap_conservation_witness :
    scenarioResult.burn_amount =
      min (scenarioEscrow.amount_in * scenarioEscrow.burn_bps / 10000 * 200 / 100)
        (scenarioEscrow.amount_in / 10) ∧
    scenarioResult.burn_amount ≤ scenarioEscrow.amount_in / 10 ∧
    scenarioResult.output_amount + scenarioResult.burn_amount = scenarioEscrow.amount_in ∧
    execute_swap scenarioEscrow 200 0 = Except.ok scenarioResult :=
  C2_burn_cap_conservation scenarioEscrow 200 0 scenarioResult (by decide) (by decide)

/-- Claim C5 (confirmed): whenever stake_orgo's checked addition does not
overflow, the stored fee discount equals
min(floor(cumulative / 100000000) * 50, 5000) basis points, never exceeds
5000, and the spec's scenarios hold: cumulative 250000000 gives 100 bps and
cumulative 1000000000 gives 500 bps. -/
theorem C5_discount_formula (sa : StakeAccount) (amount : Nat) (now : Int) (sa2 : StakeAccount)
    (h : stake_orgo sa amount now = some sa2) :
    sa2.fee_discount_bps = min ((sa.amount + amount) / 100000000 * 50) 5000 ∧
    sa2.fee_discount_bps ≤ 5000 ∧
    (stake_orgo c5StartAccount 250000000 0).map (fun s => s.fee_discount_bps) = some 100 ∧
    (stake_orgo c5StartAccount 1000000000 0).map (fun s => s.fee_discount_bps) = some 500 := by
  simp only [stake_orgo] at h
  split_ifs at h
  injection h with h
  subst h
  exact ⟨rfl, min_le_right _ _, by decide, by decide⟩

/-- Witness for claim C5: depositing 250000000 base units into a fresh
account stores a 100 bps discount, matching the formula. -/
theorem C5_discount_formula_witness :
    c5ResultAccount.fee_discount_bps = min ((c5StartAccount.amount + 250000000) / 100000000 * 50) 5000 ∧
    c5ResultAccount.fee_discount_bps ≤ 5000 ∧
    (stake_orgo c5StartAccount 250000000 0).map (fun s => s.fee_discount_bps) = some 100 ∧
    (stake_orgo c5StartAccount 1000000000 0).map (fun s => s.fee_discount_bps) = some 500 :=
  C5_discount_formula c5StartAccount 250000000 0 c5ResultAccount (by decide)

/-- Claim C7 counterexample: a Pending escrow created at time 0, executed at
time 86400 — exactly 86400 elapsed seconds, not MORE than 86400 as the claim
requires for expiry — nevertheless fails with SwapExpired, because the
source requires the elapsed time to be strictly below 86400. -/
theorem C7_counterexample :
    execute_swap scenarioEscrow 100 86400 = Except.error ErrorCode.SwapExpired ∧
    ¬ (86400 : Int) - scenarioEscrow.created_at > 86400 :=
  ⟨by decide, by decide⟩

/-- Claim C7 (amended): execute_swap fails with SwapExpired if and only if
AT LEAST 86400 seconds have elapsed since created_at — the boundary case of
exactly 86400 seconds already expires. -/
theorem C7_expiry_boundary (e : EscrowAccount) (v : Nat) (t : Int) :
    execute_swap e v t = Except.error ErrorCode.SwapExpired ↔ 86400 ≤ t - e.created_at := by
  simp only [execute_swap]
  split_ifs with h1 h2 h3 <;> simp <;> omega

/-- Claim C8 counterexample: a Completed escrow re-executed after the expiry
window (172800 seconds past creation) fails with SwapExpired, not with
InvalidStatus as the claim asserts for every later call — the expiry check
precedes the status check. -/
theorem C8_counterexample :
    execute_swap completedEscrow 100 172800 = Except.error ErrorCode.SwapExpired ∧
    execute_swap completedEscrow 100 172800 ≠ Except.error ErrorCode.InvalidStatus :=
  ⟨by decide, by decide⟩

/-- Claim C8 (amended): a successful execute_swap leaves the escrow
Completed, and on a Completed escrow every later execute_swap call fails —
with InvalidStatus while fewer than 86400 seconds have elapsed since
creation, with SwapExpired from 86400 seconds on, and never with success —
so the Completed status is terminal. -/
theorem C8_completed_terminal (e : EscrowAccount) (v : Nat) (t : Int) (r : SwapResult) :
    (execute_swap e v t = Except.ok r → r.escrow.status = SwapStatus.Completed) ∧
    (e.status = SwapStatus.Completed → t - e.created_at < 86400 →
        execute_swap e v t = Except.error ErrorCode.InvalidStatus) ∧
    (e.status = SwapStatus.Completed → 86400 ≤ t - e.created_at →
        execute_swap e v t = Except.error ErrorCode.SwapExpired) ∧
    (e.status = SwapStatus.Completed → execute_swap e v t ≠ Except.ok r) := by
  have hok : execute_swap e v t = Except.ok r → r.escrow.status = SwapStatus.Completed := by
    intro h
    simp only [execute_swap] at h
    split_ifs at h with h1 h2 h3
    injection h with h
    subst h
    rfl
  have hinv : e.status = SwapStatus.Completed → t - e.created_at < 86400 →
      execute_swap e v t = Except.error ErrorCode.InvalidStatus := by
    intro hs h1
    simp only [execute_swap]
    rw [if_pos h1, if_neg (by simp [hs])]
  have hexp : e.status = SwapStatus.Completed → 86400 ≤ t - e.created_at →
      execute_swap e v t = Except.error ErrorCode.SwapExpired := by
    intro hs h2
    simp only [execute_swap]
    rw [if_neg (by omega)]
  refine ⟨hok, hinv, hexp, ?_⟩
  intro hs h
  by_cases h1 : t - e.created_at < 86400
  · rw [hinv hs h1] at h
    exact Except.noConfusion h
  · rw [hexp hs (by omega)] at h
    exact Except.noConfusion h

/-- Witness for the amended claim C8: the scenario swap completes its
escrow, and a Completed escrow rejects re-execution with InvalidStatus
inside the window, with SwapExpired at the boundary, and never succeeds. -/
theorem C8_completed_terminal_witness :
    scenarioResult.escrow.status = SwapStatus.Completed ∧
    execute_swap completedEscrow 100 0 = Except.error ErrorCode.InvalidStatus ∧
    execute_swap completedEscrow 100 86400 = Except.error ErrorCode.SwapExpired ∧
    execute_swap completedEscrow 100 0 ≠ Except.ok scenarioResult :=
  ⟨(C8_completed_terminal scenarioEscrow 200 0 scenarioResult).1 (by decide),
   (C8_completed_terminal completedEscrow 100 0 scenarioResult).2.1 rfl (by decide),
   (C8_completed_terminal completedEscrow 100 86400 scenarioResult).2.2.1 rfl (by decide),
   (C8_completed_terminal completedEscrow 100 0 scenarioResult).2.2.2 rfl⟩

end OrgoSwap
